import Mathlib

/-!
Shallow embedding of `src/util/demo_data_loader/ckan_loader.py` (the demo-data
CKAN loader) and verification of the specification's claims about it.

The Python module talks to a remote CKAN instance through the `ckanapi`
library.  The embedding models that client as a record of oracle functions
(one per API action) and each loader as a function from the oracle and its
inputs to a trace of issued API calls plus an `Except`-style outcome, so that
the control flow of every `try`/`except ValidationError` block is explicit.
Python's dynamic values (dicts / strings / lists) are modelled by `PyV`, and
dynamic failures (TypeError on subscripting a string, NameError on an unbound
local) by `RunErr`; a `ValidationError` raised by the client is an ordinary
oracle outcome since the loaders catch it, while the dynamic failures
propagate exactly as unhandled exceptions do in Python.
-/

namespace CkanLoader

/-! ### Python dynamic values

Just enough of the Python value model for the expressions the loader
evaluates: string values, dicts (association lists in insertion order, as
Python dicts preserve insertion order) and lists. -/

inductive PyV where
  | pstr (s : String)
  | pdict (fields : List (String × PyV))
  | plist (xs : List PyV)

/-- Unhandled Python exceptions that the loaders do not catch
(`except ckanapi.errors.ValidationError` is the only handler in the file). -/
inductive RunErr where
  | typeError
  | keyError
  | nameError
deriving Repr, DecidableEq

/-- `v[k]` for a string key `k`: key lookup on a dict, `KeyError` when the key
is absent, and `TypeError` when `v` is a string or a list (Python rejects
string subscripts on those). -/
def pySubscript : PyV → String → Except RunErr PyV
  | .pdict fields, k =>
    match fields.lookup k with
    | some v => .ok v
    | none => .error .keyError
  | .pstr _, _ => .error .typeError
  | .plist _, _ => .error .typeError

/-- Replace the value at key `k` (insertion order kept), appending when absent:
the semantics of `d[k] = v` on a Python dict. -/
def setField : List (String × PyV) → String → PyV → List (String × PyV)
  | [], k, v => [(k, v)]
  | (k', v') :: rest, k, v =>
    if k' = k then (k, v) :: rest else (k', v') :: setField rest k v

/-- `v[k] = val`: dict item assignment; `TypeError` on non-dicts. -/
def pySetItem (v : PyV) (k : String) (val : PyV) : Except RunErr PyV :=
  match v with
  | .pdict fields => .ok (.pdict (setField fields k val))
  | .pstr _ => .error .typeError
  | .plist _ => .error .typeError

/-- The elements produced by `for x in v`: a dict yields its keys, a list its
elements, a string its one-character substrings. -/
def pyIterElems : PyV → List PyV
  | .pdict fields => fields.map (fun kv => .pstr kv.1)
  | .plist xs => xs
  | .pstr s => s.data.map (fun c => .pstr (String.mk [c]))

/-- Python `s == v` where `s` is a `str`: true only when `v` is an equal
string (comparison with a value of another type yields `False`). -/
def pyEqStrV (s : String) (v : PyV) : Bool :=
  match v with
  | .pstr t => s == t
  | _ => false

/-! ### Slug derivation (`_create_name`, `_create_title`)

`_create_name` is
```python
name = re.sub('[^a-zA-Z0-9_ /]', '', title)
name = re.sub('[_ /]', '-', name)
name = name.lower()
```
Both regexes match single characters, so the first substitution is a filter
and the second a per-character map.  After the filter the string is pure
ASCII, so Python's `str.lower()` is the per-character ASCII lowering. -/

/-- Characters kept by `re.sub('[^a-zA-Z0-9_ /]', '', ·)`. -/
def allowedChar (c : Char) : Bool :=
  (65 ≤ c.toNat && c.toNat ≤ 90) || (97 ≤ c.toNat && c.toNat ≤ 122) ||
  (48 ≤ c.toNat && c.toNat ≤ 57) || c == '_' || c == ' ' || c == '/'

/-- Characters matched by `re.sub('[_ /]', '-', ·)`. -/
def sepChar (c : Char) : Bool :=
  c == '_' || c == ' ' || c == '/'

/-- The second substitution, per character. -/
def dashChar (c : Char) : Char :=
  if sepChar c then '-' else c

/-- ASCII lowering of one character (`str.lower()` acts character-wise on the
ASCII-only strings `_create_name` feeds it). -/
def pyLowerChar (c : Char) : Char :=
  if 65 ≤ c.toNat && c.toNat ≤ 90 then Char.ofNat (c.toNat + 32) else c

/-- `_create_name`: strip disallowed characters, replace each `_`, space or
`/` with `-`, lowercase. -/
def createName (title : String) : String :=
  String.mk (((title.data.filter allowedChar).map dashChar).map pyLowerChar)

/-- `_create_title`: `re.sub('[_]', ' ', title)` — replace each underscore
with a space. -/
def createTitle (title : String) : String :=
  String.mk (title.data.map (fun c => if c == '_' then ' ' else c))

/-- The spec's slug algorithm, as worded in the claim under test: strip
disallowed characters, then replace each **maximal run** of `_`, space or `/`
with a single `-`, then lowercase.  `collapseDashAux prevSep cs` emits one
`-` per run of separator characters. -/
def collapseDashAux : Bool → List Char → List Char
  | _, [] => []
  | prevSep, c :: rest =>
    if sepChar c then
      if prevSep then collapseDashAux true rest
      else '-' :: collapseDashAux true rest
    else c :: collapseDashAux false rest

/-- Slug derivation as the claim words it (runs of separators collapsed). -/
def slugSpecCollapse (s : String) : String :=
  String.mk ((collapseDashAux false (s.data.filter allowedChar)).map pyLowerChar)

/-- One-pass restatement of what the code actually does: drop a disallowed
character, turn each individual separator character into its own `-`,
lowercase everything else. -/
def slugEachAux : List Char → List Char
  | [] => []
  | c :: rest =>
    if allowedChar c then
      (if sepChar c then '-' else pyLowerChar c) :: slugEachAux rest
    else slugEachAux rest

/-- One-pass slug derivation (each separator character becomes one `-`). -/
def slugSpecEach (s : String) : String :=
  String.mk (slugEachAux s.data)

/-- The output alphabet claimed for slugs: lowercase ASCII letters, digits
and hyphens. -/
def goodSlugChar (c : Char) : Bool :=
  (97 ≤ c.toNat && c.toNat ≤ 122) || (48 ≤ c.toNat && c.toNat ≤ 57) || c == '-'

/-! ### Tag derivation (`_create_tags`)

```python
def _create_tags(tags_str):
    if not tags_str.strip():
        return []
    tag_names = list(map(slugify.slugify, tags_str.split(',')))
    return [{"name": tag} for tag in tag_names]
```
`slugify.slugify` is the external python-slugify library, taken as a
parameter.  A tag dict `{"name": t}` is represented by its name `t`. -/

/-- Python `s.split(',')`: split at every comma; `"".split(',') == ['']`. -/
def splitCommaAux : List Char → List Char → List String
  | [], cur => [String.mk cur.reverse]
  | c :: cs, cur =>
    if c == ',' then String.mk cur.reverse :: splitCommaAux cs []
    else splitCommaAux cs (c :: cur)

def pySplitComma (s : String) : List String :=
  splitCommaAux s.data []

/-- The (ASCII) whitespace removed by Python `str.strip()`. -/
def isPyWhitespace (c : Char) : Bool :=
  c == ' ' || c == '\t' || c == '\n' || c == '\r' ||
  c == Char.ofNat 11 || c == Char.ofNat 12

/-- Python `s.strip()`. -/
def pyStrip (s : String) : String :=
  String.mk (((s.data.dropWhile isPyWhitespace).reverse.dropWhile isPyWhitespace).reverse)

def createTags (slugifyFn : String → String) (tagsStr : String) : List String :=
  if pyStrip tagsStr == "" then []
  else (pySplitComma tagsStr).map slugifyFn

/-! ### Metadata parser (`_load_documents`)

The CSV file is modelled as a `List (List String)` of rows.  `row[i]` raises
`IndexError` when the row is shorter than `i + 1`; since every failure of the
parser is an `IndexError`, the parser's error type has that single
constructor. -/

inductive ParseErr where
  | indexError
deriving Repr, DecidableEq

/-- One parsed document, i.e. the dict built for a data row.  The
`{'name': tag}` dicts in the `tags` list are represented by their names. -/
structure Document where
  title : String
  name : String
  file : String
  start_year : String
  end_year : String
  country_code : String
  notes : String
  tags : List String
  dataset : String
  dataset_name : String
  user : String
deriving Repr, DecidableEq

/-- The dict built for one data row.  Python reads `row[2]`, `row[4]`, …,
`row[12]` while evaluating the dict literal and raises `IndexError` at the
first missing one; since all such failures are the same `IndexError`, they
are modelled by one match over all ten columns.  `str(row[8])` is the
identity on the string `row[8]`.  The initial `'tags': _create_tags(row[9])`
entry is overwritten with the raw comma-separated pieces of `row[9]` (the
`re.sub` inside that loop discards its result) whenever `len(row[9]) > 0`. -/
def parseRow (slugifyFn : String → String) (row : List String) :
    Except ParseErr Document :=
  match row.get? 2, row.get? 4, row.get? 5, row.get? 6, row.get? 7,
      row.get? 8, row.get? 9, row.get? 10, row.get? 11, row.get? 12 with
  | some c2, some c4, some c5, some c6, some c7, some c8, some c9, some c10,
      some c11, some c12 =>
    let tags0 := createTags slugifyFn c9
    .ok { title := c2
          name := createName c2
          file := c4
          start_year := c5
          end_year := c6
          country_code := c7
          notes := c8
          tags := if c9.length > 0 then pySplitComma c9 else tags0
          dataset := c10
          dataset_name := c11
          user := c12 }
  | _, _, _, _, _, _, _, _, _, _ => .error .indexError

/-- The reader loop of `_load_documents`: while `start_table` is set, map the
row to a document; then (for **every** row, preamble included) evaluate
`row[1] == 'logi_id'` — which itself raises `IndexError` on a row with fewer
than two columns — and set `start_table` once it holds. -/
def loadDocumentsGo (slugifyFn : String → String) :
    Bool → List Document → List (List String) → Except ParseErr (List Document)
  | _, acc, [] => .ok acc.reverse
  | false, acc, row :: rest =>
    match row.get? 1 with
    | some c1 => loadDocumentsGo slugifyFn (false || c1 == "logi_id") acc rest
    | none => .error .indexError
  | true, acc, row :: rest =>
    match parseRow slugifyFn row with
    | .error e => .error e
    | .ok d =>
      match row.get? 1 with
      | some c1 => loadDocumentsGo slugifyFn (true || c1 == "logi_id") (d :: acc) rest
      | none => .error .indexError

/-- `_load_documents`, over an in-memory table. -/
def loadDocuments (slugifyFn : String → String) (table : List (List String)) :
    Except ParseErr (List Document) :=
  loadDocumentsGo slugifyFn false [] table

/-- Positional parsing of a block of data rows: one document per row, failing
at the first row that does not parse. -/
def parseAll (slugifyFn : String → String) :
    List (List String) → Except ParseErr (List Document)
  | [] => .ok []
  | row :: rest =>
    match parseRow slugifyFn row with
    | .error e => .error e
    | .ok d =>
      match parseAll slugifyFn rest with
      | .error e => .error e
      | .ok ds => .ok (d :: ds)

/-! ### The catalog client

Every `ckan.action.*` call either returns a Python value or raises
`ckanapi.errors.ValidationError` (the only exception the loaders catch;
transport failures are outside the model, as they abort the run by design).
Each loader takes a record of such oracles and produces the list of calls it
issued together with its outcome. -/

/-- Outcome of one catalog API call. -/
inductive ApiOutcome where
  | ok (v : PyV)
  | validationError

/-! ### Dataset reconciliation (`load_datasets`) -/

/-- The dict passed to `package_create` / `package_update` for a document. -/
structure DatasetPayload where
  title : String
  name : String
  type : String
  owner_org : String
  notes : String
  tags : List String
  start_year : String
  end_year : String
  country_code : String

/-- The `dataset` dict literal built in `load_datasets`:  `str(...)` on
`notes`, `start_year` and `end_year` is the identity on strings. -/
def payloadOf (d : Document) : DatasetPayload :=
  { title := createTitle d.dataset
    name := d.dataset_name
    type := "oht"
    owner_org := "spectrum"
    notes := d.notes
    tags := d.tags
    start_year := d.start_year
    end_year := d.end_year
    country_code := d.country_code }

structure DsClient where
  package_create : DatasetPayload → ApiOutcome
  package_show : String → ApiOutcome
  package_update : PyV → DatasetPayload → ApiOutcome

inductive DsCall where
  | packageCreate (p : DatasetPayload)
  | packageShow (key : String)
  | packageUpdate (id : PyV) (p : DatasetPayload)

/-- One iteration of the `load_datasets` loop: try `package_create`; on
`ValidationError` fall back to `package_show(id=dataset['name'])['id']`
followed by `package_update`; a `ValidationError` in the fallback is caught
and logged, while a dynamic error from subscripting the show result
propagates. -/
def loadOneDataset (c : DsClient) (d : Document) :
    List DsCall × Except RunErr Unit :=
  let dataset := payloadOf d
  match c.package_create dataset with
  | .ok _ => ([.packageCreate dataset], .ok ())
  | .validationError =>
    match c.package_show dataset.name with
    | .validationError =>
      -- the whole fallback `try` block failed with ValidationError: log, go on
      ([.packageCreate dataset, .packageShow dataset.name], .ok ())
    | .ok shown =>
      match pySubscript shown "id" with
      | .error e => ([.packageCreate dataset, .packageShow dataset.name], .error e)
      | .ok idv =>
        -- `package_update` succeeding logs info; raising ValidationError is
        -- caught and logged; either way the loop continues
        match c.package_update idv dataset with
        | .ok _ =>
          ([.packageCreate dataset, .packageShow dataset.name,
            .packageUpdate idv dataset], .ok ())
        | .validationError =>
          ([.packageCreate dataset, .packageShow dataset.name,
            .packageUpdate idv dataset], .ok ())

/-- `load_datasets`: the per-document upserts in order; an uncaught dynamic
error aborts the remaining documents. -/
def loadDatasets (c : DsClient) : List Document → List DsCall × Except RunErr Unit
  | [] => ([], .ok ())
  | d :: rest =>
    match loadOneDataset c d with
    | (tr, .error e) => (tr, .error e)
    | (tr, .ok ()) =>
      match loadDatasets c rest with
      | (tr', r) => (tr ++ tr', r)

/-- Names of the payloads of the `package_create` calls in a trace. -/
def createCallNames (tr : List DsCall) : List String :=
  tr.filterMap fun call =>
    match call with
    | .packageCreate p => some p.name
    | _ => none

/-! ### Resource reconciliation (`load_resources`, `_upload_resource`) -/

/-- The `resource_dict` literal built in `load_resources`. -/
structure ResourceDict where
  title : String
  name : String
  url : String
  package_id : String
deriving Repr, DecidableEq

structure ResClient where
  resource_create : String → ResourceDict → ApiOutcome
  resource_show : String → ApiOutcome
  resource_update : PyV → ResourceDict → ApiOutcome

/-- Calls issued while loading resources; `warnSkip` records the
`log.warning` emitted for a record with no file attachment (with the name the
message interpolates). -/
inductive ResCall where
  | resourceCreate (file_path : String) (r : ResourceDict)
  | resourceShow (key : String)
  | resourceUpdate (id : PyV) (r : ResourceDict)
  | warnSkip (name : String)

/-- `_upload_resource`: `resource_create` with the file stream; on
`ValidationError` fall back to `resource_show(id=resource_dict['name'])['id']`
then `resource_update`; validation failures of the fallback are caught. -/
def uploadResource (c : ResClient) (file_path : String) (rd : ResourceDict) :
    List ResCall × Except RunErr Unit :=
  match c.resource_create file_path rd with
  | .ok _ => ([.resourceCreate file_path rd], .ok ())
  | .validationError =>
    match c.resource_show rd.name with
    | .validationError =>
      ([.resourceCreate file_path rd, .resourceShow rd.name], .ok ())
    | .ok shown =>
      match pySubscript shown "id" with
      | .error e => ([.resourceCreate file_path rd, .resourceShow rd.name], .error e)
      | .ok idv =>
        match c.resource_update idv rd with
        | .ok _ =>
          ([.resourceCreate file_path rd, .resourceShow rd.name,
            .resourceUpdate idv rd], .ok ())
        | .validationError =>
          ([.resourceCreate file_path rd, .resourceShow rd.name,
            .resourceUpdate idv rd], .ok ())

/-- The `load_resources` loop.  `lastRd` is the Python local `resource_dict`:
unbound (`none`) until the first record with a file reference assigns it.
The skip branch evaluates `f"Resource {resource_dict['name']} not created …"`
**before** `resource_dict` is ever assigned, so on the first empty-file
record it raises `NameError`; afterwards it interpolates the previous
record's dict.  `os.path.join` is modelled as `/`-concatenation. -/
def loadResourcesGo (c : ResClient) (resource_folder : String) :
    List Document → Option ResourceDict → List ResCall →
    List ResCall × Except RunErr Unit
  | [], _, tr => (tr, .ok ())
  | d :: rest, lastRd, tr =>
    if d.file.length < 1 then
      match lastRd with
      | none => (tr, .error .nameError)
      | some rd => loadResourcesGo c resource_folder rest (some rd) (tr ++ [.warnSkip rd.name])
    else
      let rd : ResourceDict :=
        { title := d.title, name := d.name, url := "upload", package_id := d.dataset_name }
      let fp := resource_folder ++ "/" ++ d.file
      match uploadResource c fp rd with
      | (tr', .error e) => (tr ++ tr', .error e)
      | (tr', .ok ()) => loadResourcesGo c resource_folder rest (some rd) (tr ++ tr')

/-- `load_resources`. -/
def loadResources (c : ResClient) (resource_folder : String) (docs : List Document) :
    List ResCall × Except RunErr Unit :=
  loadResourcesGo c resource_folder docs none []

/-- The `resource_create` upload calls in a trace. -/
def uploadCalls (tr : List ResCall) : List ResCall :=
  tr.filter fun call =>
    match call with
    | .resourceCreate _ _ => true
    | _ => false

/-! ### User reconciliation (`load_users`) -/

structure UserClient where
  user_create : String → ApiOutcome
  user_show : String → ApiOutcome
  user_update : PyV → ApiOutcome
  api_token_create : PyV → PyV

inductive UserCall where
  | userCreate (name : String)
  | userShow (key : String)
  | userUpdate (id : PyV)
  | apiTokenCreate (id : PyV)

/-- The `load_users` loop.  State: `created` is the Python local
`created_users` (initialised to `[]`, then **reassigned** — not appended — to
each newly created user's dict by `created_users = new_user`); `newUser` is
the local `new_user`, unbound until the first successful create.

Create path: `new_user = user_create(**user)`; `created_users = new_user`;
`api_key = api_token_create(id=new_user['id'], …)`;
`new_user['api_key'] = api_key` (which, via aliasing, is also visible through
`created_users`).

Fallback path on `ValidationError`:
`update_user = user_show(id=user['name'])['id']` — the id **string** — then
`user_id = update_user['id']` subscripts that string, then
`user_update(id=user_id, **user)`, then
`api_token_create(id=new_user['id'], …)` (note: `new_user`, not the user
being updated) and `update_user['api_key'] = api_key`.  Only
`ValidationError` is caught; TypeError / KeyError / NameError propagate. -/
def loadUsersGo (c : UserClient) :
    List String → PyV → Option PyV → List UserCall →
    List UserCall × Except RunErr PyV
  | [], created, _, tr => (tr, .ok created)
  | name :: rest, created, newUser, tr =>
    match c.user_create name with
    | .ok v =>
      let tr := tr ++ [.userCreate name]
      match pySubscript v "id" with
      | .error e => (tr, .error e)
      | .ok idv =>
        let tok := c.api_token_create idv
        let tr := tr ++ [.apiTokenCreate idv]
        match pySetItem v "api_key" tok with
        | .error e => (tr, .error e)
        | .ok v' => loadUsersGo c rest v' (some v') tr
    | .validationError =>
      let tr := tr ++ [.userCreate name]
      match c.user_show name with
      | .validationError =>
        -- caught by the fallback's `except ValidationError`: log error, go on
        loadUsersGo c rest created newUser (tr ++ [.userShow name])
      | .ok shown =>
        let tr := tr ++ [.userShow name]
        match pySubscript shown "id" with
        | .error e => (tr, .error e)
        | .ok update_user =>
          match pySubscript update_user "id" with
          | .error e => (tr, .error e)
          | .ok user_id =>
            match c.user_update user_id with
            | .validationError =>
              loadUsersGo c rest created newUser (tr ++ [.userUpdate user_id])
            | .ok _ =>
              let tr := tr ++ [.userUpdate user_id]
              match newUser with
              | none => (tr, .error .nameError)
              | some nu =>
                match pySubscript nu "id" with
                | .error e => (tr, .error e)
                | .ok nid =>
                  let tok := c.api_token_create nid
                  let tr := tr ++ [.apiTokenCreate nid]
                  match pySetItem update_user "api_key" tok with
                  | .error e => (tr, .error e)
                  | .ok _ => loadUsersGo c rest created newUser tr

/-- `load_users`, over the list of user names in the users file; returns the
final value of `created_users`. -/
def loadUsers (c : UserClient) (users : List String) :
    List UserCall × Except RunErr PyV :=
  loadUsersGo c users (.plist []) none []

/-! ### Organization reconciliation (`load_organizations`) -/

structure OrgClient where
  organization_create : String → ApiOutcome
  organization_show : String → ApiOutcome
  organization_update : PyV → ApiOutcome

inductive OrgCall where
  | orgCreate (name : String)
  | orgShow (key : String)
  | orgUpdate (id : PyV)

/-- The `load_organizations` loop, accumulating `organization_ids_dict`.
Create path: `org = organization_create(**organization)` then
`organization_ids_dict[org_name] = org["id"]`.  Fallback on
`ValidationError`: `org_id = organization_show(id=org_name)['id']`, then
`organization_update(id=org_id, **organization)` and record `org_id`;
a `ValidationError` inside the fallback is caught and logged. -/
def loadOrgsGo (c : OrgClient) :
    List String → List (String × PyV) → List OrgCall →
    List OrgCall × Except RunErr (List (String × PyV))
  | [], dict, tr => (tr, .ok dict)
  | name :: rest, dict, tr =>
    match c.organization_create name with
    | .ok org =>
      let tr := tr ++ [.orgCreate name]
      match pySubscript org "id" with
      | .error e => (tr, .error e)
      | .ok idv => loadOrgsGo c rest (dict ++ [(name, idv)]) tr
    | .validationError =>
      let tr := tr ++ [.orgCreate name]
      match c.organization_show name with
      | .validationError => loadOrgsGo c rest dict (tr ++ [.orgShow name])
      | .ok shown =>
        let tr := tr ++ [.orgShow name]
        match pySubscript shown "id" with
        | .error e => (tr, .error e)
        | .ok idv =>
          match c.organization_update idv with
          | .ok _ => loadOrgsGo c rest (dict ++ [(name, idv)]) (tr ++ [.orgUpdate idv])
          | .validationError => loadOrgsGo c rest dict (tr ++ [.orgUpdate idv])

/-- `load_organizations`. -/
def loadOrganizations (c : OrgClient) (orgs : List String) :
    List OrgCall × Except RunErr (List (String × PyV)) :=
  loadOrgsGo c orgs [] []

/-! ### The per-user phase of `load_data`

```python
for user in created_users:
    ckan = ckanapi.RemoteCKAN(ckan_url, apikey=user['api_key'])
    user_documents = [d for d in documents if d['user'] == user]
    load_datasets(ckan, user_documents)
    load_resources(ckan, user_documents)
```
`created_users` is whatever `load_users` returned, so the loop iterates via
`pyIterElems`; `user['api_key']` subscripts each iterated value and
`d['user'] == user` is a Python `str` comparison against it. -/

inductive LoadPhase where
  | rescope (api_key : PyV)
  | datasetsPhase (docs : List Document)
  | resourcesPhase (docs : List Document)

def loadDataGo (docs : List Document) :
    List PyV → List LoadPhase → List LoadPhase × Except RunErr Unit
  | [], tr => (tr, .ok ())
  | u :: rest, tr =>
    match pySubscript u "api_key" with
    | .error e => (tr, .error e)
    | .ok tok =>
      let userDocs := docs.filter fun d => pyEqStrV d.user u
      loadDataGo docs rest
        (tr ++ [.rescope tok, .datasetsPhase userDocs, .resourcesPhase userDocs])

/-- The per-user loop of `load_data`, run on the value `load_users`
returned. -/
def loadDataLoop (docs : List Document) (created_users : PyV) :
    List LoadPhase × Except RunErr Unit :=
  loadDataGo docs (pyIterElems created_users) []

/-! ### Archive expansion (`_unpack_zip`, `_unpack_rar`)

Both functions create `DATA_PATH/tmp` if absent, extract into it, upload one
resource per contained file (mutating the caller's `resource_dict` with
`title`, `name` and `format` before each upload), and remove the folder in a
`finally` clause; the whole body sits in a `try … except Exception` so any
failure — a bad archive, a failed extraction, an exception escaping
`_upload_resource` — is logged and reaches the `finally`.

The file system is abstracted to whether the extraction folder exists.  The
extraction itself is an oracle: `.ok files` is `namelist()` after a
successful `extractall`, `.error msg` any exception raised while opening or
extracting the archive.  `uploadRaises f` says whether `_upload_resource`
raises an (uncaught-there) exception for the file `f`, in which case the
remaining files are not uploaded.  `os.path.splitext` is modelled by
splitting at the last dot (returning no extension when that dot starts the
name — the dot-file handling of paths with directories is simplified, which
is irrelevant to the cleanup property). -/

/-- Relevant file-system state: whether `DATA_PATH/tmp` exists. -/
structure FS where
  tmpExists : Bool
deriving Repr, DecidableEq

/-- `os.makedirs(extract_folder)` guarded by `os.path.exists`. -/
def makedirsTmp (fs : FS) : FS := { fs with tmpExists := true }

/-- `shutil.rmtree(extract_folder)`. -/
def rmtreeTmp (fs : FS) : FS := { fs with tmpExists := false }

/-- Split a character list at its last `'.'`; `none` when there is none. -/
def splitAtLastDot : List Char → Option (List Char × List Char)
  | [] => none
  | c :: rest =>
    match splitAtLastDot rest with
    | some (base, ext) => some (c :: base, ext)
    | none => if c == '.' then some ([], c :: rest) else none

/-- `os.path.splitext`: `(root, ext)` with `ext` starting at the last dot,
empty when the dot is the leading character. -/
def splitext (s : String) : String × String :=
  match splitAtLastDot s.data with
  | none => (s, "")
  | some ([], _) => (s, "")
  | some (base, ext) => (String.mk base, String.mk ext)

/-- ASCII upper-casing of one character (`str.upper()` character-wise). -/
def pyUpperChar (c : Char) : Char :=
  if 97 ≤ c.toNat && c.toNat ≤ 122 then Char.ofNat (c.toNat - 32) else c

/-- `re.sub('[/.]', '', ext).upper()`. -/
def formatOf (ext : String) : String :=
  String.mk ((ext.data.filter (fun c => !(c == '/' || c == '.'))).map pyUpperChar)

/-- An upload issued from the archive loop: the extracted file's path and the
`resource_dict` contents at that moment. -/
inductive ArchiveCall where
  | upload (file_path : String) (rd : List (String × PyV))

/-- The per-file loop shared by both unpack functions, threading the mutated
`resource_dict`.  When `skipDirs` is set (the rar variant) a path for which
`isDir` holds is not uploaded; the zip variant has no such check.  An upload
that raises aborts the loop (the exception is caught by the surrounding
`except Exception`). -/
def archiveUploadsGo (dataPath : String) (skipDirs : Bool) (isDir : String → Bool)
    (uploadRaises : String → Bool) :
    List (String × PyV) → List String → List ArchiveCall
  | _, [] => []
  | rd, f :: rest =>
    let (base, ext) := splitext f
    let rd := setField rd "title" (.pstr base)
    let rd := setField rd "name" (.pstr (createName base))
    let rd := setField rd "format" (.pstr (formatOf ext))
    let path := dataPath ++ "/tmp/" ++ f
    if skipDirs && isDir path then
      archiveUploadsGo dataPath skipDirs isDir uploadRaises rd rest
    else if uploadRaises path then
      [.upload path rd]
    else
      .upload path rd :: archiveUploadsGo dataPath skipDirs isDir uploadRaises rd rest

/-- `_unpack_zip`: make the folder, extract-and-upload inside
`try … except Exception`, `finally: shutil.rmtree(extract_folder)`. -/
def unpackZip (dataPath : String) (extractOutcome : Except String (List String))
    (uploadRaises : String → Bool) (rd : List (String × PyV)) (fs0 : FS) :
    List ArchiveCall × FS :=
  let fs1 := makedirsTmp fs0
  match extractOutcome with
  | .error _ => ([], rmtreeTmp fs1)
  | .ok files =>
    (archiveUploadsGo dataPath false (fun _ => false) uploadRaises rd files,
     rmtreeTmp fs1)

/-- `_unpack_rar`: identical to `_unpack_zip` but skipping
`os.path.isdir` entries. -/
def unpackRar (dataPath : String) (extractOutcome : Except String (List String))
    (isDir : String → Bool) (uploadRaises : String → Bool)
    (rd : List (String × PyV)) (fs0 : FS) :
    List ArchiveCall × FS :=
  let fs1 := makedirsTmp fs0
  match extractOutcome with
  | .error _ => ([], rmtreeTmp fs1)
  | .ok files =>
    (archiveUploadsGo dataPath true isDir uploadRaises rd files, rmtreeTmp fs1)

/-! ## Helper lemmas -/

/-- `Char.ofNat` of a scalar value below the surrogate range round-trips. -/
theorem toNat_ofNat_small (n : Nat) (h : n < 55296) : (Char.ofNat n).toNat = n := by
  unfold Char.ofNat
  split
  · rfl
  · rename_i hval
    exact absurd (Or.inl h) hval

/-- The character produced for one kept input character is a lowercase
letter, a digit or a hyphen. -/
theorem goodSlugChar_of_allowed (c : Char) (h : allowedChar c = true) :
    goodSlugChar (pyLowerChar (dashChar c)) = true := by
  simp only [allowedChar, Bool.or_eq_true, Bool.and_eq_true, decide_eq_true_eq,
    beq_iff_eq] at h
  rcases h with ((((⟨h1, h2⟩ | ⟨h1, h2⟩) | ⟨h1, h2⟩) | h) | h) | h
  · -- uppercase letter: kept by `dashChar`, lowered by `pyLowerChar`
    have e1 : c ≠ '_' := by intro e; rw [e] at h2; exact absurd h2 (by decide)
    have e2 : c ≠ ' ' := by intro e; rw [e] at h1; exact absurd h1 (by decide)
    have e3 : c ≠ '/' := by intro e; rw [e] at h1; exact absurd h1 (by decide)
    have hd : dashChar c = c := by simp [dashChar, sepChar, e1, e2, e3]
    rw [hd]
    have hl : pyLowerChar c = Char.ofNat (c.toNat + 32) := by
      simp [pyLowerChar, h1, h2]
    rw [hl]
    have ht : (Char.ofNat (c.toNat + 32)).toNat = c.toNat + 32 :=
      toNat_ofNat_small _ (by omega)
    simp [goodSlugChar, ht]
    omega
  · -- lowercase letter: untouched
    have e1 : c ≠ '_' := by intro e; rw [e] at h1; exact absurd h1 (by decide)
    have e2 : c ≠ ' ' := by intro e; rw [e] at h1; exact absurd h1 (by decide)
    have e3 : c ≠ '/' := by intro e; rw [e] at h1; exact absurd h1 (by decide)
    have hd : dashChar c = c := by simp [dashChar, sepChar, e1, e2, e3]
    have hl : pyLowerChar c = c := by
      simp only [pyLowerChar, ite_eq_right_iff, Bool.and_eq_true, decide_eq_true_eq]
      intro h'
      omega
    rw [hd, hl]
    simp [goodSlugChar]
    omega
  · -- digit: untouched
    have e1 : c ≠ '_' := by intro e; rw [e] at h2; exact absurd h2 (by decide)
    have e2 : c ≠ ' ' := by intro e; rw [e] at h1; exact absurd h1 (by decide)
    have e3 : c ≠ '/' := by intro e; rw [e] at h1; exact absurd h1 (by decide)
    have hd : dashChar c = c := by simp [dashChar, sepChar, e1, e2, e3]
    have hl : pyLowerChar c = c := by
      simp only [pyLowerChar, ite_eq_right_iff, Bool.and_eq_true, decide_eq_true_eq]
      intro h'
      omega
    rw [hd, hl]
    simp [goodSlugChar]
    omega
  · rw [h]; rfl
  · rw [h]; rfl
  · rw [h]; rfl

/-- The three passes of `_create_name` fuse into the one-pass
`slugEachAux`. -/
theorem slugEach_eq (l : List Char) :
    ((l.filter allowedChar).map dashChar).map pyLowerChar = slugEachAux l := by
  induction l with
  | nil => rfl
  | cons c l ih =>
    by_cases h : allowedChar c = true
    · by_cases hs : sepChar c = true
      · have hd : dashChar c = '-' := by simp [dashChar, hs]
        simp [List.filter_cons, h, slugEachAux, hs, hd, ih]
        rfl
      · have hd : dashChar c = c := by simp [dashChar, hs]
        simp [List.filter_cons, h, slugEachAux, hs, hd, ih]
    · simp [List.filter_cons, h, slugEachAux, ih]

/-! ## Claim C5 — slug derivation algorithm -/

/-- C5 (counterexample).  The claim states that `deriveSlug` replaces each
**maximal run** of `_`, space or `/` with a single `-`.  The code
(`re.sub('[_ /]', '-', name)`) replaces each such character individually, so
on the input `"a  b"` (two spaces) it produces `"a--b"` while the claimed
algorithm produces `"a-b"`. -/
theorem claim5_counterexample :
    createName "a  b" = "a--b" ∧ slugSpecCollapse "a  b" = "a-b" ∧
    createName "a  b" ≠ slugSpecCollapse "a  b" := by
  refine ⟨by decide, by decide, by decide⟩

/-- C5 (amended).  `_create_name` first removes every character outside
`[A-Za-z0-9_ /]`, then replaces **each individual** underscore, space or `/`
character with its own `-` (a run of k separators becomes k hyphens), then
lowercases; in particular `_create_name("GDP Growth_Index") =
"gdp-growth-index"` and `_create_name("") = ""`. -/
theorem claim5_amended :
    (∀ s : String, createName s = slugSpecEach s) ∧
    createName "GDP Growth_Index" = "gdp-growth-index" ∧
    createName "" = "" := by
  refine ⟨fun s => ?_, by decide, by decide⟩
  unfold createName slugSpecEach
  rw [slugEach_eq]

/-! ## Claim C10 — slug output alphabet -/

/-- C10 (confirmed).  Every character of a derived slug is a lowercase ASCII
letter, a digit or a hyphen: no space, underscore, slash, uppercase letter or
any other character survives `_create_name`. -/
theorem claim10_slug_alphabet (s : String) :
    (createName s).data.all goodSlugChar = true := by
  unfold createName
  rw [List.all_eq_true]
  intro c hc
  simp only [String.data] at hc
  rcases List.mem_map.mp hc with ⟨c1, hc1, rfl⟩
  rcases List.mem_map.mp hc1 with ⟨c0, hc0, rfl⟩
  exact goodSlugChar_of_allowed c0 (List.of_mem_filter hc0)

/-! ## Parser lemmas -/

/-- A row that parses successfully has at least 13 columns. -/
theorem parseRow_ok_length {slugifyFn : String → String} {row : List String}
    {d : Document} (h : parseRow slugifyFn row = .ok d) : 13 ≤ row.length := by
  unfold parseRow at h
  split at h
  · rename_i h2 h4 h5 h6 h7 h8 h9 h10 h11 h12
    rcases List.get?_eq_some.mp h12 with ⟨hlt, _⟩
    omega
  · exact absurd h (by simp)

/-- A row with fewer than 13 columns fails to parse (Python's `IndexError` on
one of `row[2]` … `row[12]`). -/
theorem parseRow_short {slugifyFn : String → String} {row : List String}
    (h : row.length < 13) : parseRow slugifyFn row = .error .indexError := by
  cases hr : parseRow slugifyFn row with
  | ok d => exact absurd (parseRow_ok_length hr) (by omega)
  | error e => cases e; rfl

/-- A row with at least 13 columns parses to a document. -/
theorem parseRow_long {slugifyFn : String → String} {row : List String}
    (h : 13 ≤ row.length) : ∃ d, parseRow slugifyFn row = .ok d := by
  have h2 := List.get?_eq_get (show 2 < row.length by omega)
  have h4 := List.get?_eq_get (show 4 < row.length by omega)
  have h5 := List.get?_eq_get (show 5 < row.length by omega)
  have h6 := List.get?_eq_get (show 6 < row.length by omega)
  have h7 := List.get?_eq_get (show 7 < row.length by omega)
  have h8 := List.get?_eq_get (show 8 < row.length by omega)
  have h9 := List.get?_eq_get (show 9 < row.length by omega)
  have h10 := List.get?_eq_get (show 10 < row.length by omega)
  have h11 := List.get?_eq_get (show 11 < row.length by omega)
  have h12 := List.get?_eq_get (show 12 < row.length by omega)
  unfold parseRow
  rw [h2, h4, h5, h6, h7, h8, h9, h10, h11, h12]
  exact ⟨_, rfl⟩

/-- Once `start_table` is set, the loop is `parseAll` (prepended with
whatever was already accumulated). -/
theorem loadDocumentsGo_true (slugifyFn : String → String)
    (rest : List (List String)) (acc : List Document) :
    loadDocumentsGo slugifyFn true acc rest =
      (parseAll slugifyFn rest).map (fun ds => acc.reverse ++ ds) := by
  induction rest generalizing acc with
  | nil => simp [loadDocumentsGo, parseAll, Except.map]
  | cons row rest ih =>
    cases hr : parseRow slugifyFn row with
    | error e =>
      simp [loadDocumentsGo, parseAll, hr, Except.map]
    | ok d =>
      have hlen := parseRow_ok_length hr
      have h1 : row.get? 1 = some (row.get ⟨1, by omega⟩) :=
        List.get?_eq_get (show 1 < row.length by omega)
      simp only [loadDocumentsGo, parseAll, hr, h1, Bool.true_or]
      rw [ih]
      cases hm : parseAll slugifyFn rest with
      | error e => simp [Except.map]
      | ok ds => simp [Except.map]

/-! ## Claim C4 — sentinel behaviour of the parser -/

/-- C4 (counterexample).  The claim says a row **at** or after the sentinel
with fewer columns than the positional mapping requires (13) makes the parse
fail.  The sentinel row itself is only read at index 1 and is never mapped:
a table whose sentinel row has just 2 columns parses successfully (to no
documents), it does not fail. -/
theorem claim4_counterexample :
    loadDocuments (fun s => s) [["a", "logi_id"]] = .ok [] ∧
    (["a", "logi_id"] : List String).length < 13 := by
  exact ⟨rfl, by decide⟩

/-- C4 (amended).  After the first row whose column 1 is `"logi_id"`, every
row is mapped positionally through `parseRow`, one document per row; the
sentinel row itself is ignored (it needs only its column 1, not the 13
columns of the mapping).  A row **strictly after** the sentinel with fewer
than 13 columns makes the parse fail with `IndexError`, and one with at
least 13 columns yields a document. -/
theorem claim4_amended :
    (∀ (slugifyFn : String → String) (srow : List String) (rest : List (List String)),
        srow.get? 1 = some "logi_id" →
        loadDocuments slugifyFn (srow :: rest) = parseAll slugifyFn rest) ∧
    (∀ (slugifyFn : String → String) (row : List String), row.length < 13 →
        parseRow slugifyFn row = .error .indexError) ∧
    (∀ (slugifyFn : String → String) (row : List String), 13 ≤ row.length →
        ∃ d, parseRow slugifyFn row = .ok d) := by
  refine ⟨?_, fun f row h => parseRow_short h, fun f row h => parseRow_long h⟩
  intro slugifyFn srow rest hs
  unfold loadDocuments
  simp only [loadDocumentsGo, hs, Bool.false_or, beq_self_eq_true]
  rw [loadDocumentsGo_true]
  cases hm : parseAll slugifyFn rest with
  | error e => simp [Except.map]
  | ok ds => simp [Except.map]

/-- Witness for C4 at concrete inputs: a two-column sentinel row followed by
one 13-column data row, a short row, and a full row. -/
theorem claim4_witness :
    loadDocuments (fun s => s)
        [["a", "logi_id"],
         ["c0", "c1", "c2", "c3", "c4", "c5", "c6", "c7", "c8", "c9", "c10",
          "c11", "c12"]] =
      parseAll (fun s => s)
        [["c0", "c1", "c2", "c3", "c4", "c5", "c6", "c7", "c8", "c9", "c10",
          "c11", "c12"]] ∧
    parseRow (fun s => s) ["only", "two"] = .error .indexError ∧
    ∃ d, parseRow (fun s => s)
        ["c0", "c1", "c2", "c3", "c4", "c5", "c6", "c7", "c8", "c9", "c10",
         "c11", "c12"] = .ok d :=
  ⟨claim4_amended.1 (fun s => s) ["a", "logi_id"] _ rfl,
   claim4_amended.2.1 (fun s => s) ["only", "two"] (by decide),
   claim4_amended.2.2 (fun s => s) _ (by decide)⟩

/-! ## Claim C8 — preamble rows are ignored -/

/-- C8 (counterexample).  The claim says no row before the sentinel can make
the parser fail, regardless of its number of columns.  But the loop evaluates
`row[1] == 'logi_id'` on **every** row, so a preamble row with fewer than two
columns raises `IndexError`. -/
theorem claim8_counterexample :
    loadDocuments (fun s => s) [["x"], ["a", "logi_id"]] = .error .indexError := rfl

/-- C8 (amended).  A preamble row with at least two columns is ignored
entirely, whatever its contents: dropping any block of such non-sentinel rows
from the front of the table leaves the parse result unchanged.  (A preamble
row with fewer than two columns instead fails the parse, as the
counterexample shows.) -/
theorem claim8_amended (slugifyFn : String → String) (pre rest : List (List String))
    (hpre : ∀ r ∈ pre, ∃ v, r.get? 1 = some v ∧ v ≠ "logi_id") :
    loadDocuments slugifyFn (pre ++ rest) = loadDocuments slugifyFn rest := by
  induction pre with
  | nil => rfl
  | cons r pre ih =>
    rcases hpre r (List.mem_cons_self r pre) with ⟨v, hv, hvne⟩
    have hbeq : (v == "logi_id") = false := beq_eq_false_iff_ne.mpr hvne
    unfold loadDocuments
    rw [List.cons_append]
    simp only [loadDocumentsGo, hv, hbeq, Bool.false_or]
    exact ih fun r hr => hpre r (List.mem_cons_of_mem _ hr)

/-- Witness for C8: a junk two-column preamble row is ignored. -/
theorem claim8_witness :
    loadDocuments (fun s => s) ([["p0", "junk"]] ++ [["a", "logi_id"]]) =
      loadDocuments (fun s => s) [["a", "logi_id"]] :=
  claim8_amended (fun s => s) [["p0", "junk"]] [["a", "logi_id"]]
    (by
      intro r hr
      simp only [List.mem_singleton] at hr
      subst hr
      exact ⟨"junk", rfl, by decide⟩)

/-! ## Claim C6 — tags attached to a parsed record -/

/-- Stand-in for the external `slugify.slugify` library function, adequate on
the ASCII inputs of the examples below (trim, lowercase, hyphenate); the
theorems never depend on its exact behaviour because the parsed record's tags
turn out not to use it. -/
def slugifyModel (s : String) : String :=
  createName (pyStrip s)

/-- The tag derivation as the claim words it: blank field ⇒ no tags,
otherwise slugify the comma-separated pieces, drop empties, deduplicate. -/
def deriveTagsSpec (slugifyFn : String → String) (raw : String) : List String :=
  if pyStrip raw = "" then []
  else ((((pySplitComma raw).map slugifyFn).filter (fun t => t ≠ "")).dedup)

/-- A sample data row (13 columns) and the document it parses to. -/
def demoRow : List String :=
  ["c0", "c1", "Title_X", "c3", "file.csv", "2000", "2020", "KE", "some notes",
   "Energy, Climate Risk", "GDP_Growth", "Custom Name!", "alice"]

def demoDoc : Document :=
  { title := "Title_X"
    name := "title-x"
    file := "file.csv"
    start_year := "2000"
    end_year := "2020"
    country_code := "KE"
    notes := "some notes"
    tags := ["Energy", " Climate Risk"]
    dataset := "GDP_Growth"
    dataset_name := "Custom Name!"
    user := "alice" }

/-- A string of length zero is the empty string. -/
theorem str_empty_of_length_zero (s : String) (h : s.length = 0) : s = "" := by
  cases s with
  | mk data =>
    cases data with
    | nil => rfl
    | cons c cs => exact absurd h (by simp [String.length])

/-- C6 (counterexample).  The claim says the attached tags are the slugified
comma-pieces, empties dropped and duplicates removed, and that a
whitespace-only column yields no tags.  In the code the
`_create_tags(row[9])` value is discarded whenever `len(row[9]) > 0` and the
raw comma-separated pieces are attached instead (the sanitising `re.sub`
result inside that loop is thrown away), so the record built from `demoRow`
carries the raw pieces `["Energy", " Climate Risk"]`, not
`["energy", "climate-risk"]`; and a whitespace-only tags column yields the
whitespace tag `[" "]`, not `[]`. -/
theorem claim6_counterexample :
    loadDocuments slugifyModel [["a", "logi_id"], demoRow] = .ok [demoDoc] ∧
    demoDoc.tags = ["Energy", " Climate Risk"] ∧
    deriveTagsSpec slugifyModel "Energy, Climate Risk" = ["energy", "climate-risk"] ∧
    demoDoc.tags ≠ deriveTagsSpec slugifyModel "Energy, Climate Risk" ∧
    (parseRow slugifyModel
        ["c0", "c1", "Title_X", "c3", "file.csv", "2000", "2020", "KE", "n",
         " ", "GDP_Growth", "gdp-growth", "alice"]).map Document.tags =
      .ok [" "] := by
  refine ⟨rfl, rfl, by decide, by decide, rfl⟩

/-- C6 (amended).  The parsed record's tags do not depend on the slugify
function at all; they are the raw comma-separated pieces of column 9 taken
verbatim — empties and duplicates kept — and only the **empty** (length-zero)
tags column yields an empty tag list. -/
theorem claim6_amended :
    (∀ (f g : String → String) (row : List String), parseRow f row = parseRow g row) ∧
    (∀ (f : String → String)
        (r0 r1 r2 r3 r4 r5 r6 r7 r8 r9 r10 r11 r12 : String),
        ∃ d, parseRow f [r0, r1, r2, r3, r4, r5, r6, r7, r8, r9, r10, r11, r12] =
            .ok d ∧
          d.tags = if 0 < r9.length then pySplitComma r9 else []) := by
  have hnil : ∀ f : String → String, createTags f "" = [] := fun f => rfl
  constructor
  · intro f g row
    unfold parseRow
    split
    · rename_i c2 c4 c5 c6 c7 c8 c9 c10 c11 c12 h2 h4 h5 h6 h7 h8 h9 h10 h11 h12
      by_cases h : 0 < c9.length
      · simp [h]
      · have hc : c9 = "" := str_empty_of_length_zero c9 (by omega)
        subst hc
        simp [hnil]
    · rfl
  · intro f r0 r1 r2 r3 r4 r5 r6 r7 r8 r9 r10 r11 r12
    refine ⟨_, rfl, ?_⟩
    by_cases h : 0 < r9.length
    · simp [h]
    · have hc : r9 = "" := str_empty_of_length_zero r9 (by omega)
      subst hc
      simp [hnil]

/-! ## Claim C3 — the dataset's remote name -/

/-- A client whose `package_create` always succeeds. -/
def happyDsClient : DsClient :=
  { package_create := fun _ => .ok (.pstr "pkg-1")
    package_show := fun _ => .validationError
    package_update := fun _ _ => .validationError }

/-- A client whose `package_create` reports a validation conflict and whose
`package_show` finds the existing dataset. -/
def conflictDsClient : DsClient :=
  { package_create := fun _ => .validationError
    package_show := fun _ => .ok (.pdict [("id", .pstr "ds-7")])
    package_update := fun _ _ => .ok (.pstr "ok") }

/-- C3 (counterexample).  The claim says the dataset is created or updated
under `deriveSlug` of the document's dataset-label field (`dataset`, column
10).  The code instead passes the raw `dataset_name` column (column 11)
straight through: parsing `demoRow` (label `"GDP_Growth"`, name column
`"Custom Name!"`) and loading it issues `package_create` with name
`"Custom Name!"`, which is not the slug `"gdp-growth"` of the label. -/
theorem claim3_counterexample :
    loadDocuments slugifyModel [["a", "logi_id"], demoRow] = .ok [demoDoc] ∧
    createCallNames (loadOneDataset happyDsClient demoDoc).1 = ["Custom Name!"] ∧
    createName demoDoc.dataset = "gdp-growth" ∧
    ("Custom Name!" : String) ≠ "gdp-growth" := by
  exact ⟨rfl, rfl, by decide, by decide⟩

/-- C3 (amended).  The name under which a document's dataset is created or
updated is the document's `dataset_name` field taken verbatim, which the
parser reads from column 11 of the row; it is not recomputed with the slug
function.  (Re-running the importer still resolves to the same remote
dataset for the same input, since the name is a deterministic function of
the row, just not the slug of the label.) -/
theorem claim3_amended (c : DsClient) (d : Document) :
    createCallNames (loadOneDataset c d).1 = [d.dataset_name] ∧
    (∀ i p, DsCall.packageUpdate i p ∈ (loadOneDataset c d).1 →
        p.name = d.dataset_name) ∧
    (∀ (f : String → String) (row : List String) (d' : Document),
        parseRow f row = .ok d' → row.get? 11 = some d'.dataset_name) := by
  have hname : (payloadOf d).name = d.dataset_name := rfl
  refine ⟨?_, ?_, ?_⟩
  · unfold loadOneDataset
    cases hc : c.package_create (payloadOf d) with
    | ok v => simp [createCallNames, hc, hname]
    | validationError =>
      cases hs : c.package_show d.dataset_name with
      | validationError => simp [createCallNames, hc, hs, hname]
      | ok shown =>
        cases hsub : pySubscript shown "id" with
        | error e => simp [createCallNames, hc, hs, hsub, hname]
        | ok idv =>
          cases hu : c.package_update idv (payloadOf d) with
          | ok v => simp [createCallNames, hc, hs, hsub, hu, hname]
          | validationError => simp [createCallNames, hc, hs, hsub, hu, hname]
  · intro i p
    unfold loadOneDataset
    simp only [hname]
    cases hc : c.package_create (payloadOf d) with
    | ok v => simp [hc]
    | validationError =>
      cases hs : c.package_show d.dataset_name with
      | validationError => simp [hc, hs]
      | ok shown =>
        cases hsub : pySubscript shown "id" with
        | error e => simp [hc, hs, hsub]
        | ok idv =>
          cases hu : c.package_update idv (payloadOf d) with
          | ok v =>
            simp only [hc, hs, hsub, hu, List.mem_cons, List.not_mem_nil, or_false]
            rintro (h | h | h)
            · exact absurd h (by simp)
            · exact absurd h (by simp)
            · rw [((DsCall.packageUpdate.injEq _ _ _ _).mp h).2]
              exact hname
          | validationError =>
            simp only [hc, hs, hsub, hu, List.mem_cons, List.not_mem_nil, or_false]
            rintro (h | h | h)
            · exact absurd h (by simp)
            · exact absurd h (by simp)
            · rw [((DsCall.packageUpdate.injEq _ _ _ _).mp h).2]
              exact hname
  · intro f row d' h
    unfold parseRow at h
    split at h
    · rename_i c2 c4 c5 c6 c7 c8 c9 c10 c11 c12 h2 h4 h5 h6 h7 h8 h9 h10 h11 h12
      injection h with hrec
      subst hrec
      exact h11
    · exact absurd h (by simp)

/-- Witness for C3 (amended) at a concrete client, document and row. -/
theorem claim3_witness :
    createCallNames (loadOneDataset conflictDsClient demoDoc).1 =
      [demoDoc.dataset_name] ∧
    (payloadOf demoDoc).name = demoDoc.dataset_name ∧
    demoRow.get? 11 = some demoDoc.dataset_name :=
  ⟨(claim3_amended conflictDsClient demoDoc).1,
   (claim3_amended conflictDsClient demoDoc).2.1 (.pstr "ds-7") (payloadOf demoDoc)
     (List.Mem.tail _ (List.Mem.tail _ (List.Mem.head _))),
   (claim3_amended conflictDsClient demoDoc).2.2 slugifyModel demoRow demoDoc rfl⟩

/-! ## Claim C1 — the upsert fallback across the four entity kinds -/

/-- A user client for which every create reports a validation conflict and
the lookup succeeds with the user's remote record. -/
def conflictUserClient : UserClient :=
  { user_create := fun _ => .validationError
    user_show := fun _ => .ok (.pdict [("id", .pstr "u-1"), ("name", .pstr "alice")])
    user_update := fun _ => .ok (.pstr "unused")
    api_token_create := fun _ => .pstr "tok" }

/-- An organization client in the same conflict situation. -/
def conflictOrgClient : OrgClient :=
  { organization_create := fun _ => .validationError
    organization_show := fun _ => .ok (.pdict [("id", .pstr "o-1")])
    organization_update := fun _ => .ok (.pstr "ok") }

/-- C1 (code bug).  The claim — create, then on a validation conflict look
up by natural key and update by the looked-up id, uniformly for all four
entity kinds — is what the organization, dataset and resource loaders do,
but the user loader cannot: `update_user = user_show(id=name)['id']` already
binds the id **string**, and the next line `user_id = update_user['id']`
subscripts that string, raising an uncaught `TypeError`.  So on a user
create conflict the run calls `user_create` and `user_show` and then
crashes, never calling `user_update`; the same conflict on an organization
follows the claimed create → lookup → update trace. -/
theorem claim1_code_bug :
    loadUsers conflictUserClient ["alice"] =
      ([.userCreate "alice", .userShow "alice"], .error .typeError) ∧
    loadOrganizations conflictOrgClient ["acme"] =
      ([.orgCreate "acme", .orgShow "acme", .orgUpdate (.pstr "o-1")],
       .ok [("acme", .pstr "o-1")]) :=
  ⟨rfl, rfl⟩

/-! ## Claim C2 — the collection returned by `load_users` and the per-user
phase -/

/-- A user client for which every create succeeds, returning a server dict
with the user's id and name. -/
def happyUserClient : UserClient :=
  { user_create := fun name =>
      .ok (.pdict [("id", .pstr ("id-" ++ name)), ("name", .pstr name)])
    user_show := fun _ => .validationError
    user_update := fun _ => .validationError
    api_token_create := fun idv =>
      match idv with
      | .pstr s => .pstr ("tok-" ++ s)
      | _ => .pstr "tok" }

/-- What `load_users` actually returns after creating alice and bob: only
bob's dict (`created_users = new_user` replaces the initial list instead of
appending to it). -/
def bobDict : PyV :=
  .pdict [("id", .pstr "id-bob"), ("name", .pstr "bob"),
          ("api_key", .pstr "tok-id-bob")]

/-- C2 (code bug).  The claim says `load_users` returns all successfully
created/updated users with their tokens and that the orchestrator processes
each user's documents under that user's token.  In the code
`created_users = new_user` overwrites the collection with the latest user's
dict (alice is lost), updated users are never collected, and the per-user
loop then iterates over that **dict** — yielding its string keys — so
`user['api_key']` raises `TypeError` before any dataset or resource call;
moreover the filter `d['user'] == user` compares the document's user string
with a non-string value, which is always false in Python. -/
theorem claim2_code_bug :
    loadUsers happyUserClient ["alice", "bob"] =
      ([.userCreate "alice", .apiTokenCreate (.pstr "id-alice"),
        .userCreate "bob", .apiTokenCreate (.pstr "id-bob")], .ok bobDict) ∧
    loadDataLoop [demoDoc] bobDict = ([], .error .typeError) ∧
    (∀ (s : String) (fields : List (String × PyV)),
        pyEqStrV s (.pdict fields) = false) :=
  ⟨rfl, rfl, fun _ _ => rfl⟩

/-! ## Claim C7 — resource records with an empty file reference -/

def plainResClient : ResClient :=
  { resource_create := fun _ _ => .ok (.pstr "r-1")
    resource_show := fun _ => .validationError
    resource_update := fun _ _ => .validationError }

/-- `demoDoc` with the file reference emptied. -/
def emptyFileDoc : Document :=
  { demoDoc with file := "" }

/-- C7 (code bug).  The claim — warn, upload nothing, continue — is the
evident intent, but the warning's f-string interpolates
`resource_dict['name']` and `resource_dict` is only assigned **after** the
skip check: when the first record of the run has an empty file reference the
loader raises an uncaught `NameError` (zero uploads, but the run aborts
rather than continues), and when an earlier record did carry a file the
warning names that previous record's resource instead of the skipped one
(and processing then does continue with zero uploads for the skipped
record). -/
theorem claim7_code_bug :
    loadResources plainResClient "resources" [emptyFileDoc] =
      ([], .error .nameError) ∧
    uploadCalls (loadResources plainResClient "resources" [emptyFileDoc]).1 = [] ∧
    loadResources plainResClient "resources" [demoDoc, emptyFileDoc] =
      ([.resourceCreate "resources/file.csv"
          { title := "Title_X", name := "title-x", url := "upload",
            package_id := "Custom Name!" },
        .warnSkip "title-x"], .ok ()) :=
  ⟨rfl, rfl, rfl⟩

/-! ## Claim C9 — archive-expansion cleanup -/

/-- C9 (confirmed).  Whatever the outcome of extraction (success, failure,
or an upload raising partway through the contained files), both archive
expanders leave the temporary extraction folder removed: the `finally:
shutil.rmtree(extract_folder)` clause runs on every exit path of the
`try`/`except Exception` body. -/
theorem claim9_cleanup (dataPath : String) (eo : Except String (List String))
    (isDir uploadRaises : String → Bool) (rd : List (String × PyV)) (fs0 : FS) :
    (unpackZip dataPath eo uploadRaises rd fs0).2.tmpExists = false ∧
    (unpackRar dataPath eo isDir uploadRaises rd fs0).2.tmpExists = false := by
  cases eo with
  | error msg => exact ⟨rfl, rfl⟩
  | ok files => exact ⟨rfl, rfl⟩

end CkanLoader
